import Mathlib

/-!
Shallow embedding of the Networking-Agent diagnostic engine.

Sources embedded:
  - agent.py: run_diagnostics helpers _calculate_health_score and
    _generate_summary_and_fixes.
  - diagnostics/portia_check.py: PortiaAIClient.is_available,
    PortiaAIClient.generate_ai_insights, _generate_fallback_insights,
    get_ai_insights.
  - diagnostics/dns_check.py: normalize_target, dns_resolution.
  - diagnostics/http_check.py: _prepare_url, http_check.
  - diagnostics/ping_check.py: ping_host.

Modelling conventions: a Python dict read with .get(key) is a structure
field of Option type (absent or None = none); .get(key, d) is .getD d.
A probe outcome dict always carries its ok flag, so ok is a plain Bool.
Underlying network calls (socket.gethostbyname, httpx get, ping3.ping)
are passed in as explicit function parameters returning Except, where
Except.error e models the call raising an exception with str(e) = e.
Python numbers used by the analyzer are modelled as Int; the ping probe
round-trip time is modelled as a rational.
-/

/-- One probe result dict as read by the analyzer and scorer: the fields
accessed via .get in agent.py and portia_check.py. -/
structure ProbeResult where
  ok : Bool
  error : Option String := none
  days_left : Option Int := none
  response_time_ms : Option Int := none
  latency_ms : Option Int := none
  status_code : Option Int := none
deriving DecidableEq

/-- The raw_results mapping built by run_diagnostics: all five category
keys are always present (agent.py lines 26-32). -/
structure DiagnosticResults where
  dns : ProbeResult
  ssl : ProbeResult
  http : ProbeResult
  ping : ProbeResult
  geoip : ProbeResult
deriving DecidableEq

/-- agent.py _calculate_health_score: start at 100, subtract fixed
penalties per failing category, clamp at 0. -/
def _calculate_health_score (raw_results : DiagnosticResults) : Int :=
  let score : Int := 100
  let score := if !raw_results.dns.ok then score - 25 else score
  let score := if !raw_results.http.ok then score - 25 else score
  let score := if !raw_results.ssl.ok then score - 20 else score
  let score := if !raw_results.ping.ok then score - 15 else score
  let score := if !raw_results.geoip.ok then score - 15 else score
  max 0 score

/-- An entry of insights["root_cause_analysis"] in portia_check.py. -/
structure Issue where
  category : String
  severity : String
  issue : String
  impact : String
  technical_details : String
deriving DecidableEq

/-- An entry of insights["intelligent_recommendations"] in portia_check.py. -/
structure Recommendation where
  priority : String
  action : String
  details : String
  estimated_fix_time : String
deriving DecidableEq

/-- An entry of insights["predicted_issues"] in portia_check.py. -/
structure PredictedIssue where
  type : String
  description : String
  recommended_action : String
  timeline : String
deriving DecidableEq

/-- The insights dict built by _generate_fallback_insights. -/
structure Insights where
  root_cause_analysis : List Issue
  intelligent_recommendations : List Recommendation
  risk_assessment : String
  performance_score : Int
  predicted_issues : List PredictedIssue
  ai_summary : String
deriving DecidableEq

/-- The DNS issue appended in portia_check.py lines 97-103. -/
def dnsIssue (dns_result : ProbeResult) : Issue :=
  { category := "DNS", severity := "high", issue := "DNS resolution failure",
    impact := "Complete connectivity loss",
    technical_details := dns_result.error.getD "Unknown DNS error" }

/-- The DNS recommendation appended in portia_check.py lines 104-109. -/
def dnsRecommendation : Recommendation :=
  { priority := "critical", action := "Check DNS configuration",
    details := "Verify DNS server settings and domain registration status",
    estimated_fix_time := "5-15 minutes" }

/-- The SSL issue appended in portia_check.py lines 117-123. -/
def sslIssue (ssl_result : ProbeResult) : Issue :=
  { category := "SSL", severity := "medium", issue := "SSL certificate problem",
    impact := "Security warnings for users",
    technical_details := ssl_result.error.getD "SSL certificate validation failed" }

/-- The SSL recommendation appended in portia_check.py lines 124-129. -/
def sslRecommendation : Recommendation :=
  { priority := "high", action := "Renew SSL certificate",
    details := "Certificate may be expired or improperly configured",
    estimated_fix_time := "10-30 minutes" }

/-- The HTTP issue appended in portia_check.py lines 147-153. -/
def httpIssue (http_result : ProbeResult) : Issue :=
  { category := "HTTP", severity := "high", issue := "HTTP connectivity failure",
    impact := "Website inaccessible to users",
    technical_details := http_result.error.getD "HTTP connection failed" }

/-- The HTTP recommendation appended in portia_check.py lines 154-159. -/
def httpRecommendation : Recommendation :=
  { priority := "critical", action := "Check web server status",
    details := "Verify server is running and accepting connections",
    estimated_fix_time := "5-20 minutes" }

/-- The ping issue appended in portia_check.py lines 176-182. -/
def pingIssue (ping_result : ProbeResult) : Issue :=
  { category := "Network", severity := "medium", issue := "ICMP ping failure",
    impact := "Network connectivity issues",
    technical_details := ping_result.error.getD "Ping timeout or blocked" }

/-- The ping recommendation appended in portia_check.py lines 183-188. -/
def pingRecommendation : Recommendation :=
  { priority := "medium", action := "Check network connectivity",
    details := "ICMP may be blocked by firewall or network issues",
    estimated_fix_time := "10-30 minutes" }

/-- The ssl_expiration predicted issue (portia_check.py lines 137-142). -/
def sslExpirationPredicted (days_left : Int) : PredictedIssue :=
  { type := "ssl_expiration",
    description := "SSL certificate expires in " ++ toString days_left ++ " days",
    recommended_action := "Schedule certificate renewal",
    timeline := "within 2 weeks" }

/-- The performance predicted issue (portia_check.py lines 166-171). -/
def performancePredicted (response_time : Int) : PredictedIssue :=
  { type := "performance",
    description := "Slow response time: " ++ toString response_time ++ "ms",
    recommended_action := "Optimize server performance or consider CDN",
    timeline := "ongoing monitoring recommended" }

/-- The latency predicted issue (portia_check.py lines 194-199). -/
def latencyPredicted (latency : Int) : PredictedIssue :=
  { type := "latency",
    description := "High latency: " ++ toString latency ++ "ms",
    recommended_action := "Investigate network path or consider closer servers",
    timeline := "ongoing monitoring recommended" }

/-- portia_check.py PortiaAIClient._generate_fallback_insights: local
rule-based analysis.  The mutable insights dict is threaded as a chain of
lets; .append on a list is modelled as appending a singleton.  The Python
guard "if days_left and days_left < 30" is truthiness: it is skipped both
when days_left is None and when it is 0. -/
def _generate_fallback_insights (diagnostic_results : DiagnosticResults)
    (target : String) : Insights :=
  let insights : Insights :=
    { root_cause_analysis := [], intelligent_recommendations := [],
      risk_assessment := "low", performance_score := 0,
      predicted_issues := [], ai_summary := "" }
  let dns_result := diagnostic_results.dns
  let insights :=
    if !dns_result.ok then
      { insights with
          root_cause_analysis := insights.root_cause_analysis ++ [dnsIssue dns_result],
          intelligent_recommendations :=
            insights.intelligent_recommendations ++ [dnsRecommendation],
          risk_assessment := "high" }
    else
      { insights with performance_score := insights.performance_score + 25 }
  let ssl_result := diagnostic_results.ssl
  let insights :=
    if !ssl_result.ok then
      { insights with
          root_cause_analysis := insights.root_cause_analysis ++ [sslIssue ssl_result],
          intelligent_recommendations :=
            insights.intelligent_recommendations ++ [sslRecommendation],
          risk_assessment :=
            if insights.risk_assessment = "low" then "medium"
            else insights.risk_assessment }
    else
      let insights := { insights with performance_score := insights.performance_score + 25 }
      match ssl_result.days_left with
      | none => insights
      | some days_left =>
          if days_left ≠ 0 ∧ days_left < 30 then
            { insights with
                predicted_issues :=
                  insights.predicted_issues ++ [sslExpirationPredicted days_left] }
          else insights
  let http_result := diagnostic_results.http
  let insights :=
    if !http_result.ok then
      { insights with
          root_cause_analysis := insights.root_cause_analysis ++ [httpIssue http_result],
          intelligent_recommendations :=
            insights.intelligent_recommendations ++ [httpRecommendation],
          risk_assessment := "high" }
    else
      let insights := { insights with performance_score := insights.performance_score + 25 }
      let response_time := http_result.response_time_ms.getD 0
      if response_time > 3000 then
        { insights with
            predicted_issues :=
              insights.predicted_issues ++ [performancePredicted response_time] }
      else insights
  let ping_result := diagnostic_results.ping
  let insights :=
    if !ping_result.ok then
      { insights with
          root_cause_analysis := insights.root_cause_analysis ++ [pingIssue ping_result],
          intelligent_recommendations :=
            insights.intelligent_recommendations ++ [pingRecommendation] }
    else
      let insights := { insights with performance_score := insights.performance_score + 15 }
      let latency := ping_result.latency_ms.getD 0
      if latency > 200 then
        { insights with
            predicted_issues := insights.predicted_issues ++ [latencyPredicted latency] }
      else insights
  let geoip_result := diagnostic_results.geoip
  let insights :=
    if geoip_result.ok then
      { insights with performance_score := insights.performance_score + 10 }
    else insights
  let insights :=
    if !insights.root_cause_analysis.isEmpty then
      let primary_issues := insights.root_cause_analysis.map (fun issue => issue.category)
      { insights with ai_summary :=
          ("ðŸ¤– AI Analysis: Detected " ++ toString primary_issues.length ++
            " primary issue(s) affecting " ++ target ++ ". " ++
            "Main concerns: " ++ String.intercalate ", " primary_issues ++ ". " ++
            "Risk level: " ++ insights.risk_assessment ++ ". " ++
            "Performance score: " ++ toString insights.performance_score ++ "/100.") }
    else
      { insights with ai_summary :=
          ("ðŸ¤– AI Analysis: " ++ target ++
            " appears healthy with a performance score of " ++
            toString insights.performance_score ++ "/100. " ++
            "No critical issues detected.") }
  insights

/-- portia_check.py PortiaAIClient.is_available.  The api_key comes from
external configuration (config.settings.portia_api_key), modelled as an
explicit Option String parameter. -/
def is_available (api_key : Option String) : Bool :=
  match api_key with
  | none => false
  | some k => k.trim ≠ ""

/-- portia_check.py PortiaAIClient.generate_ai_insights: both the
unavailable branch and the available branch return the fallback analysis
(lines 76-81). -/
def generate_ai_insights (api_key : Option String)
    (diagnostic_results : DiagnosticResults) (target : String) : Insights :=
  if ! is_available api_key then
    _generate_fallback_insights diagnostic_results target
  else
    _generate_fallback_insights diagnostic_results target

/-- portia_check.py module-level get_ai_insights, delegating to the global
client whose api_key is external configuration (modelled as a parameter). -/
def get_ai_insights (api_key : Option String)
    (diagnostic_results : DiagnosticResults) (target : String) : Insights :=
  generate_ai_insights api_key diagnostic_results target

/-- agent.py _generate_summary_and_fixes.  In run_diagnostics the
ai_insights argument is always the (truthy) dict returned by
get_ai_insights, so only the "if ai_insights:" branch of the summary logic
is reachable; it is the branch modelled here. -/
def _generate_summary_and_fixes (raw_results : DiagnosticResults)
    (domain : String) (ai_insights : Insights) : String × List String :=
  let issues : List String :=
    (if !raw_results.dns.ok then ["DNS resolution failed"] else []) ++
    (if !raw_results.http.ok then ["HTTP connection failed"] else []) ++
    (if !raw_results.ssl.ok then ["SSL certificate issues"] else []) ++
    (if !raw_results.ping.ok then ["Ping connectivity failed"] else []) ++
    (if !raw_results.geoip.ok then ["GeoIP lookup failed"] else [])
  let fixes : List String :=
    (if !raw_results.dns.ok then
      ["Check if the domain name is correct and exists",
       "Try using a different DNS server (8.8.8.8 or 1.1.1.1)"] else []) ++
    (if !raw_results.http.ok then
      ["Verify the website is running and accessible",
       "Check if there are any firewall or network restrictions"] else []) ++
    (if !raw_results.ssl.ok then
      ["Check SSL certificate validity and expiration",
       "Ensure proper SSL configuration on the server"] else []) ++
    (if !raw_results.ping.ok then
      ["Check network connectivity to the target",
       "Verify if ICMP traffic is allowed"] else []) ++
    (if !raw_results.geoip.ok then
      ["This may indicate DNS or connectivity issues"] else [])
  let fixes := fixes ++ ai_insights.intelligent_recommendations.map (fun r =>
    "🤖 " ++ r.action ++ ": " ++ r.details ++
    (if r.estimated_fix_time ≠ "" then
      " (Est. time: " ++ r.estimated_fix_time ++ ")" else ""))
  let summary :=
    if ai_insights.ai_summary ≠ "" then ai_insights.ai_summary
    else if issues = [] then
      "✅ All diagnostics passed for " ++ domain ++
      ". The target appears to be healthy and reachable."
    else
      "⚠️ Found " ++ toString issues.length ++ " issue(s) with " ++ domain ++
      ": " ++ String.intercalate ", " issues
  (summary, fixes)

/-- The five diagnostic categories, in the fixed order the analyzer
processes them (portia_check.py top to bottom). -/
inductive Category where
  | dns
  | ssl
  | http
  | ping
  | geoip
deriving DecidableEq

/-- The analyzer processing order: DNS, SSL, HTTP, Ping, GeoIP. -/
def categoryOrder : List Category := [.dns, .ssl, .http, .ping, .geoip]

/-- The risk_assessment update each category block of
_generate_fallback_insights performs, extracted per category: DNS or HTTP
failure sets "high" unconditionally, SSL failure upgrades "low" to
"medium", ping and geoip never touch risk. -/
def riskUpdate (dr : DiagnosticResults) (risk : String) (c : Category) : String :=
  match c with
  | .dns => if !dr.dns.ok then "high" else risk
  | .ssl =>
      if !dr.ssl.ok then (if risk = "low" then "medium" else risk) else risk
  | .http => if !dr.http.ok then "high" else risk
  | .ping => risk
  | .geoip => risk

/-- Numeric rank of a risk level on the low < medium < high lattice. -/
def riskRank (s : String) : Nat :=
  if s = "high" then 2 else if s = "medium" then 1 else 0

/-- Python s.split(sep, 1)[0]: the text before the first occurrence of
sep, or all of s when sep does not occur. -/
def pySplit1Before (s sep : String) : String :=
  match s.splitOn sep with
  | [] => ""
  | x :: _ => x

/-- Python s.split(sep, 1)[1]: the text after the first occurrence of
sep (the remaining occurrences of sep rejoined). -/
def pySplit1After (s sep : String) : String :=
  match s.splitOn sep with
  | [] => ""
  | _ :: rest => String.intercalate sep rest

/-- dns_check.py normalize_target: strip an http or https scheme, then
keep only the part before the first slash. -/
def normalize_target (target : String) : String :=
  let target :=
    if target.startsWith "http://" || target.startsWith "https://" then
      pySplit1After target "//"
    else target
  pySplit1Before target "/"

/-- The dict returned by dns_check.dns_resolution. -/
structure DnsOutcome where
  ok : Bool
  host : String
  ip : Option String := none
  error : Option String := none
deriving DecidableEq

/-- dns_check.py dns_resolution.  The socket.gethostbyname call is the
gethostbyname parameter; Except.error e models it raising an exception
whose str() is e, and the try/except is the match. -/
def dns_resolution (target : String)
    (gethostbyname : String → Except String String) : DnsOutcome :=
  let host := normalize_target target
  match gethostbyname host with
  | Except.ok ip => { ok := true, host := host, ip := some ip }
  | Except.error e => { ok := false, host := host, error := some e }

/-- http_check.py _prepare_url: add an https scheme when none present. -/
def _prepare_url (url : String) : String :=
  if url.startsWith "http://" || url.startsWith "https://" then url
  else "https://" ++ url

/-- The relevant data of an httpx response after following redirects. -/
structure HttpResponse where
  status_code : Int
  final_url : String
  history : List Int
deriving DecidableEq

/-- The dict returned by http_check.http_check. -/
structure HttpOutcome where
  ok : Bool
  url : String
  status_code : Option Int := none
  response_time_ms : Option Int := none
  final_url : Option String := none
  redirect_chain : Option (List Int) := none
  error : Option String := none
deriving DecidableEq

/-- http_check.py http_check.  The httpx client GET is the http_get
parameter (Except.error e models any exception raised inside the try
block, including timeouts and connection errors); the measured wall-clock
duration is the elapsed_ms parameter. -/
def http_check (target : String)
    (http_get : String → Except String HttpResponse)
    (elapsed_ms : Int) : HttpOutcome :=
  let url := _prepare_url target
  match http_get url with
  | Except.ok r =>
      { ok := decide (r.status_code < 400), url := url,
        status_code := some r.status_code,
        response_time_ms := some elapsed_ms,
        final_url := some r.final_url,
        redirect_chain := some r.history }
  | Except.error e => { ok := false, url := url, error := some e }

/-- Python round(q, 2): round half to even at two decimal places. -/
def pyRound2 (q : ℚ) : ℚ :=
  let x := q * 100
  let f : Int := ⌊x⌋
  let frac := x - f
  let n : Int :=
    if frac > 1 / 2 then f + 1
    else if frac < 1 / 2 then f
    else if f % 2 = 0 then f else f + 1
  (n : ℚ) / 100

/-- The dict returned by ping_check.ping_host. -/
structure PingOutcome where
  ok : Bool
  host : String
  latency_ms : Option ℚ := none
  error : Option String := none
deriving DecidableEq

/-- ping_check.py ping_host.  The ping3.ping call is the ping3 parameter:
Except.ok (some rtt) is an echo reply after rtt seconds, Except.ok none is
Python None (no reply within the 2 second timeout), Except.error e models
the call raising an exception whose str() is e. -/
def ping_host (target : String)
    (ping3 : String → Except String (Option ℚ)) : PingOutcome :=
  let host := normalize_target target
  match ping3 host with
  | Except.ok none =>
      { ok := false, host := host, latency_ms := none, error := some "timeout" }
  | Except.ok (some rtt) =>
      { ok := true, host := host, latency_ms := some (pyRound2 (rtt * 1000)) }
  | Except.error e =>
      { ok := false, host := host, latency_ms := none, error := some e }

/-- C1: For every outcome set over the five categories, the health score
returned by _calculate_health_score equals 100 minus the sum of the fixed
penalties of the failing categories (DNS 25, HTTP 25, TLS/SSL 20, Ping 15,
GeoLocation 15), clamped below at 0; in particular DNS and HTTP both
failing (other categories passing) yields exactly 50. -/
theorem C1_health_score_formula (r : DiagnosticResults) :
    _calculate_health_score r =
      max 0 (100 -
        ((if r.dns.ok then 0 else 25) + (if r.http.ok then 0 else 25) +
         (if r.ssl.ok then 0 else 20) + (if r.ping.ok then 0 else 15) +
         (if r.geoip.ok then 0 else (15 : Int)))) ∧
    (r.dns.ok = false → r.http.ok = false → r.ssl.ok = true →
      r.ping.ok = true → r.geoip.ok = true →
      _calculate_health_score r = 50) := by
  cases hd : r.dns.ok <;> cases hs : r.ssl.ok <;> cases hh : r.http.ok <;>
    cases hp : r.ping.ok <;> cases hg : r.geoip.ok <;>
      simp [_calculate_health_score, hd, hs, hh, hp, hg]

/-- Witness for C1 at a concrete outcome set with DNS and HTTP failing and
the other categories passing: the score is 50. -/
theorem C1_health_score_formula_witness :
    _calculate_health_score
      { dns := { ok := false }, ssl := { ok := true }, http := { ok := false },
        ping := { ok := true }, geoip := { ok := true } } = 50 :=
  (C1_health_score_formula
    { dns := { ok := false }, ssl := { ok := true }, http := { ok := false },
      ping := { ok := true }, geoip := { ok := true } }).2 rfl rfl rfl rfl rfl

/-- Risk "high" is absorbing for every category update of the analyzer. -/
theorem riskUpdate_high (dr : DiagnosticResults) (c : Category) :
    riskUpdate dr "high" c = "high" := by
  cases c <;> simp [riskUpdate]

/-- Folding the analyzer risk updates from "high" stays "high". -/
theorem foldl_riskUpdate_high (dr : DiagnosticResults) (l : List Category) :
    List.foldl (riskUpdate dr) "high" l = "high" := by
  induction l with
  | nil => rfl
  | cons c cs ih => rw [List.foldl_cons, riskUpdate_high]; exact ih

/-- If a failing DNS or HTTP category occurs anywhere in the processing
list, folding the analyzer risk updates yields "high" from any start. -/
theorem foldl_riskUpdate_eq_high (dr : DiagnosticResults) (l : List Category) :
    ∀ s : String,
    ((Category.dns ∈ l ∧ dr.dns.ok = false) ∨
     (Category.http ∈ l ∧ dr.http.ok = false)) →
    List.foldl (riskUpdate dr) s l = "high" := by
  induction l with
  | nil =>
      intro s h
      rcases h with ⟨h1, _⟩ | ⟨h1, _⟩ <;> simp at h1
  | cons c cs ih =>
      intro s h
      rw [List.foldl_cons]
      rcases h with ⟨hm, hf⟩ | ⟨hm, hf⟩
      · rcases List.mem_cons.mp hm with rfl | hm
        · have hu : riskUpdate dr s Category.dns = "high" := by
            simp [riskUpdate, hf]
          rw [hu]; exact foldl_riskUpdate_high dr cs
        · exact ih _ (Or.inl ⟨hm, hf⟩)
      · rcases List.mem_cons.mp hm with rfl | hm
        · have hu : riskUpdate dr s Category.http = "high" := by
            simp [riskUpdate, hf]
          rw [hu]; exact foldl_riskUpdate_high dr cs
        · exact ih _ (Or.inr ⟨hm, hf⟩)

/-- The analyzer issue list is the concatenation of the per-category
issue singletons in the fixed processing order. -/
theorem fallback_root_eq (dr : DiagnosticResults) (t : String) :
    (_generate_fallback_insights dr t).root_cause_analysis =
      ((if !dr.dns.ok then [dnsIssue dr.dns] else []) ++
       (if !dr.ssl.ok then [sslIssue dr.ssl] else []) ++
       (if !dr.http.ok then [httpIssue dr.http] else []) ++
       (if !dr.ping.ok then [pingIssue dr.ping] else [])) := by
  unfold _generate_fallback_insights
  rcases hdl : dr.ssl.days_left with _ | dl <;>
    simp [hdl, apply_ite Insights.root_cause_analysis] <;>
      cases hd : dr.dns.ok <;> cases hs : dr.ssl.ok <;> cases hh : dr.http.ok <;>
        cases hp : dr.ping.ok <;> simp [hd, hs, hh, hp]

/-- The analyzer recommendation list is the concatenation of the
per-category recommendation singletons in the fixed processing order. -/
theorem fallback_recs_eq (dr : DiagnosticResults) (t : String) :
    (_generate_fallback_insights dr t).intelligent_recommendations =
      ((if !dr.dns.ok then [dnsRecommendation] else []) ++
       (if !dr.ssl.ok then [sslRecommendation] else []) ++
       (if !dr.http.ok then [httpRecommendation] else []) ++
       (if !dr.ping.ok then [pingRecommendation] else [])) := by
  unfold _generate_fallback_insights
  rcases hdl : dr.ssl.days_left with _ | dl <;>
    simp [hdl, apply_ite Insights.intelligent_recommendations] <;>
      cases hd : dr.dns.ok <;> cases hs : dr.ssl.ok <;> cases hh : dr.http.ok <;>
        cases hp : dr.ping.ok <;> simp [hd, hs, hh, hp]

/-- The analyzer final risk is the fold of the per-category risk updates
over the fixed processing order. -/
theorem fallback_risk_eq (dr : DiagnosticResults) (t : String) :
    (_generate_fallback_insights dr t).risk_assessment =
      List.foldl (riskUpdate dr) "low" categoryOrder := by
  unfold _generate_fallback_insights
  rcases hdl : dr.ssl.days_left with _ | dl <;>
    simp [hdl, categoryOrder, riskUpdate,
      apply_ite Insights.risk_assessment]

/-- The analyzer performance score is the sum of the fixed per-category
contributions of the succeeding categories. -/
theorem fallback_perf_eq (dr : DiagnosticResults) (t : String) :
    (_generate_fallback_insights dr t).performance_score =
      ((if dr.dns.ok then 25 else 0) + (if dr.ssl.ok then 25 else 0) +
       (if dr.http.ok then 25 else 0) + (if dr.ping.ok then 15 else 0) +
       (if dr.geoip.ok then 10 else 0)) := by
  unfold _generate_fallback_insights
  rcases hdl : dr.ssl.days_left with _ | dl <;>
    simp [hdl, apply_ite Insights.performance_score] <;>
      cases hd : dr.dns.ok <;> cases hs : dr.ssl.ok <;> cases hh : dr.http.ok <;>
        cases hp : dr.ping.ok <;> cases hg : dr.geoip.ok <;>
          simp [hd, hs, hh, hp, hg]

/-- C3: For every diagnostic-results input in which the DNS outcome or the
HTTP outcome has ok=false, the final risk_assessment of the analyzer is
"high", regardless of all other categories, and independent of processing
order: folding the per-category risk updates over any permutation of the
processing order also yields "high". -/
theorem C3_dns_or_http_fail_risk_high (dr : DiagnosticResults) (t : String)
    (l : List Category) (hl : l.Perm categoryOrder)
    (hfail : dr.dns.ok = false ∨ dr.http.ok = false) :
    (_generate_fallback_insights dr t).risk_assessment = "high" ∧
    List.foldl (riskUpdate dr) "low" l = "high" := by
  have hfold : ∀ l2 : List Category, Category.dns ∈ l2 → Category.http ∈ l2 →
      List.foldl (riskUpdate dr) "low" l2 = "high" := by
    intro l2 h1 h2
    rcases hfail with hf | hf
    · exact foldl_riskUpdate_eq_high dr l2 _ (Or.inl ⟨h1, hf⟩)
    · exact foldl_riskUpdate_eq_high dr l2 _ (Or.inr ⟨h2, hf⟩)
  have hmem1 : Category.dns ∈ l := by rw [hl.mem_iff]; simp [categoryOrder]
  have hmem2 : Category.http ∈ l := by rw [hl.mem_iff]; simp [categoryOrder]
  refine ⟨?_, hfold l hmem1 hmem2⟩
  rw [fallback_risk_eq]
  exact hfold categoryOrder (by simp [categoryOrder]) (by simp [categoryOrder])

/-- Input in which only the DNS category fails. -/
def dnsOnlyFail : DiagnosticResults :=
  { dns := { ok := false, error := some "getaddrinfo failed" },
    ssl := { ok := true }, http := { ok := true },
    ping := { ok := true }, geoip := { ok := true } }

/-- Witness for C3: with DNS failing and everything else passing, the
analyzer reports risk "high", and the risk-update fold over a nontrivial
permutation of the processing order is also "high". -/
theorem C3_dns_or_http_fail_risk_high_witness :
    (_generate_fallback_insights dnsOnlyFail "example.com").risk_assessment = "high" ∧
    List.foldl (riskUpdate dnsOnlyFail) "low"
      [Category.http, Category.ping, Category.dns, Category.ssl, Category.geoip] =
      "high" :=
  C3_dns_or_http_fail_risk_high dnsOnlyFail "example.com"
    [Category.http, Category.ping, Category.dns, Category.ssl, Category.geoip]
    (by decide) (Or.inl rfl)

/-- Input in which only the Ping category fails. -/
def pingOnlyFail : DiagnosticResults :=
  { dns := { ok := true }, ssl := { ok := true }, http := { ok := true },
    ping := { ok := false, error := some "timeout" }, geoip := { ok := true } }

/-- C4 counterexample: a failing category other than DNS and HTTP (here
Ping) does not upgrade the risk level: the analyzer still reports "low",
refuting the claim that any TLS/Ping/GeoLocation failure upgrades the risk
from low to at least medium. -/
theorem C4_counterexample_ping_fail_risk_low :
    pingOnlyFail.ping.ok = false ∧
    (_generate_fallback_insights pingOnlyFail "example.com").risk_assessment =
      "low" :=
  ⟨rfl, rfl⟩

/-- C4 amended: only an SSL/TLS failure upgrades the risk from low to
medium (with DNS and HTTP passing); Ping and GeoLocation failures leave
the risk unchanged (all non-DNS/HTTP categories passing except them keeps
risk "low"); and no category update ever downgrades the risk: every
riskUpdate is monotone on the low < medium < high ranks, so risk never
drops from "high" nor from "medium" back to "low". -/
theorem C4_risk_upgrade_amended (dr : DiagnosticResults) (t : String) :
    (dr.ssl.ok = false → dr.dns.ok = true → dr.http.ok = true →
      (_generate_fallback_insights dr t).risk_assessment = "medium") ∧
    (dr.dns.ok = true → dr.http.ok = true → dr.ssl.ok = true →
      (_generate_fallback_insights dr t).risk_assessment = "low") ∧
    (∀ s : String,
      riskUpdate dr s Category.ping = s ∧ riskUpdate dr s Category.geoip = s) ∧
    (∀ (s : String) (c : Category),
      riskRank s ≤ riskRank (riskUpdate dr s c)) := by
  refine ⟨?_, ?_, ?_, ?_⟩
  · intro h1 h2 h3
    rw [fallback_risk_eq]
    simp [categoryOrder, riskUpdate, h1, h2, h3]
  · intro h1 h2 h3
    rw [fallback_risk_eq]
    simp [categoryOrder, riskUpdate, h1, h2, h3]
  · intro s; exact ⟨rfl, rfl⟩
  · intro s c
    have hrank : riskRank s ≤ 2 := by
      unfold riskRank; split_ifs <;> omega
    cases c <;> simp [riskUpdate, riskRank] <;> split_ifs <;>
      simp_all [riskRank]

/-- When all five categories pass, the analyzer AI summary is the healthy
message with performance score 100. -/
theorem fallback_summary_all_ok (dr : DiagnosticResults) (t : String)
    (h1 : dr.dns.ok = true) (h2 : dr.ssl.ok = true) (h3 : dr.http.ok = true)
    (h4 : dr.ping.ok = true) (h5 : dr.geoip.ok = true) :
    (_generate_fallback_insights dr t).ai_summary =
      "ðŸ¤– AI Analysis: " ++ t ++
      " appears healthy with a performance score of " ++
      toString (100 : Int) ++ "/100. " ++ "No critical issues detected." := by
  unfold _generate_fallback_insights
  rcases hdl : dr.ssl.days_left with _ | dl <;>
    simp [h1, h2, h3, h4, h5, hdl, apply_ite Insights.ai_summary,
      apply_ite Insights.performance_score,
      apply_ite Insights.root_cause_analysis]

/-- Input in which only the SSL category fails (DNS and HTTP pass). -/
def sslOnlyFail : DiagnosticResults :=
  { dns := { ok := true }, ssl := { ok := false, error := some "expired" },
    http := { ok := true }, ping := { ok := true }, geoip := { ok := true } }

/-- Witness for C4 amended at concrete inputs: an SSL-only failure yields
risk "medium"; the ping and geoip updates leave "medium" unchanged; the
monotonicity instance holds at "medium" and geoip. -/
theorem C4_risk_upgrade_amended_witness :
    (_generate_fallback_insights sslOnlyFail "example.com").risk_assessment =
      "medium" ∧
    riskUpdate sslOnlyFail "medium" Category.ping = "medium" ∧
    riskRank "medium" ≤ riskRank (riskUpdate sslOnlyFail "medium" Category.geoip) :=
  ⟨(C4_risk_upgrade_amended sslOnlyFail "example.com").1 rfl rfl rfl,
   ((C4_risk_upgrade_amended sslOnlyFail "example.com").2.2.1 "medium").1,
   (C4_risk_upgrade_amended sslOnlyFail "example.com").2.2.2 "medium"
     Category.geoip⟩

/-- Input with every category passing and an SSL certificate with exactly
0 days left. -/
def sslZeroDaysLeft : DiagnosticResults :=
  { dns := { ok := true }, ssl := { ok := true, days_left := some 0 },
    http := { ok := true }, ping := { ok := true }, geoip := { ok := true } }

/-- Input identical to sslZeroDaysLeft but with 29 days left. -/
def ssl29DaysLeft : DiagnosticResults :=
  { dns := { ok := true }, ssl := { ok := true, days_left := some 29 },
    http := { ok := true }, ping := { ok := true }, geoip := { ok := true } }

/-- C5 (code-bug evaluation): the spec requires the ssl_expiration
predicted issue exactly when ok=true and days_left < 30, including
days_left = 0; the code guard "if days_left and days_left < 30" uses
Python truthiness, so days_left = 0 (which is < 30) emits no predicted
issue, while the same input with 29 days left does emit one. -/
theorem C5_days_left_zero_emits_nothing :
    sslZeroDaysLeft.ssl.ok = true ∧
    sslZeroDaysLeft.ssl.days_left = some 0 ∧ (0 : Int) < 30 ∧
    (_generate_fallback_insights sslZeroDaysLeft "example.com").predicted_issues =
      [] ∧
    (_generate_fallback_insights ssl29DaysLeft "example.com").predicted_issues =
      [sslExpirationPredicted 29] :=
  ⟨rfl, rfl, by decide, rfl, rfl⟩

/-- The fixed outcome set of the round-trip example: dns ok; tls/ssl
failed with error "expired"; http ok with status 200 and response time
150 ms; ping ok with latency 40 ms; geo ok. -/
def roundTripExample : DiagnosticResults :=
  { dns := { ok := true },
    ssl := { ok := false, error := some "expired" },
    http := { ok := true, status_code := some 200, response_time_ms := some 150 },
    ping := { ok := true, latency_ms := some 40 },
    geoip := { ok := true } }

/-- C6: on the fixed round-trip outcome set the engine produces health
score exactly 80, risk "medium", exactly one Issue of the SSL category
(the spec names this category tls) with severity "medium", and exactly one
Recommendation with priority "high" and action "Renew SSL certificate". -/
theorem C6_round_trip_example :
    _calculate_health_score roundTripExample = 80 ∧
    (_generate_fallback_insights roundTripExample "example.com").risk_assessment =
      "medium" ∧
    ((_generate_fallback_insights roundTripExample "example.com").root_cause_analysis.map
      (fun i => (i.category, i.severity))) = [("SSL", "medium")] ∧
    ((_generate_fallback_insights roundTripExample "example.com").intelligent_recommendations.map
      (fun r => (r.priority, r.action))) = [("high", "Renew SSL certificate")] :=
  ⟨rfl, rfl, rfl, rfl⟩

/-- C7: when all five categories pass, the analyzer produces an empty
issue list, risk "low", an empty recommendation list, the run produces an
empty fix-suggestion list, and the summary states the target appears
healthy (with the all-pass performance score 100). -/
theorem C7_all_ok_healthy (dr : DiagnosticResults) (t : String)
    (h1 : dr.dns.ok = true) (h2 : dr.ssl.ok = true) (h3 : dr.http.ok = true)
    (h4 : dr.ping.ok = true) (h5 : dr.geoip.ok = true) :
    (_generate_fallback_insights dr t).root_cause_analysis = [] ∧
    (_generate_fallback_insights dr t).risk_assessment = "low" ∧
    (_generate_fallback_insights dr t).intelligent_recommendations = [] ∧
    (_generate_summary_and_fixes dr t (_generate_fallback_insights dr t)).2 = [] ∧
    (_generate_summary_and_fixes dr t (_generate_fallback_insights dr t)).1 =
      "ðŸ¤– AI Analysis: " ++ t ++
      " appears healthy with a performance score of " ++
      toString (100 : Int) ++ "/100. " ++ "No critical issues detected." := by
  have hroot : (_generate_fallback_insights dr t).root_cause_analysis = [] := by
    rw [fallback_root_eq]; simp [h1, h2, h3, h4]
  have hrisk : (_generate_fallback_insights dr t).risk_assessment = "low" := by
    rw [fallback_risk_eq]; simp [categoryOrder, riskUpdate, h1, h2, h3]
  have hrecs : (_generate_fallback_insights dr t).intelligent_recommendations = [] := by
    rw [fallback_recs_eq]; simp [h1, h2, h3, h4]
  have hsum := fallback_summary_all_ok dr t h1 h2 h3 h4 h5
  have hne : (_generate_fallback_insights dr t).ai_summary ≠ "" := by
    rw [hsum]
    intro he
    have h2 := congrArg String.length he
    simp [String.length_append] at h2
    exact absurd h2.2 (by decide)
  refine ⟨hroot, hrisk, hrecs, ?_, ?_⟩
  · unfold _generate_summary_and_fixes
    simp [h1, h2, h3, h4, h5, hrecs]
  · unfold _generate_summary_and_fixes
    simp [h1, h2, h3, h4, h5, hne, hsum]
    intro he
    have hlen := congrArg String.length he
    simp [String.length_append] at hlen
    exact absurd hlen.2 (by decide)

/-- Witness for C7 at an all-pass outcome set. -/
theorem C7_all_ok_healthy_witness :
    (_generate_fallback_insights
      { dns := { ok := true }, ssl := { ok := true }, http := { ok := true },
        ping := { ok := true }, geoip := { ok := true } }
      "example.com").root_cause_analysis = [] ∧
    (_generate_fallback_insights
      { dns := { ok := true }, ssl := { ok := true }, http := { ok := true },
        ping := { ok := true }, geoip := { ok := true } }
      "example.com").risk_assessment = "low" := by
  have h := C7_all_ok_healthy
    { dns := { ok := true }, ssl := { ok := true }, http := { ok := true },
      ping := { ok := true }, geoip := { ok := true } }
    "example.com" rfl rfl rfl rfl rfl
  exact ⟨h.1, h.2.1⟩

/-- The recommendation the analyzer emits for an issue of a given
category string. -/
def recommendationForCategory (c : String) : Recommendation :=
  if c = "DNS" then dnsRecommendation
  else if c = "SSL" then sslRecommendation
  else if c = "HTTP" then httpRecommendation
  else pingRecommendation

/-- C8: for every input, the analyzer Issues and Recommendations follow
the fixed category-check order DNS, SSL/TLS, HTTP, Ping: both lists are
the concatenations of the per-category singletons in exactly that order,
and the recommendation list is the positional image of the issue list
(recommendation i is derived from issue i), never re-sorted by priority
value. -/
theorem C8_issue_recommendation_order (dr : DiagnosticResults) (t : String) :
    (_generate_fallback_insights dr t).root_cause_analysis =
      ((if !dr.dns.ok then [dnsIssue dr.dns] else []) ++
       (if !dr.ssl.ok then [sslIssue dr.ssl] else []) ++
       (if !dr.http.ok then [httpIssue dr.http] else []) ++
       (if !dr.ping.ok then [pingIssue dr.ping] else [])) ∧
    (_generate_fallback_insights dr t).intelligent_recommendations =
      ((if !dr.dns.ok then [dnsRecommendation] else []) ++
       (if !dr.ssl.ok then [sslRecommendation] else []) ++
       (if !dr.http.ok then [httpRecommendation] else []) ++
       (if !dr.ping.ok then [pingRecommendation] else [])) ∧
    (_generate_fallback_insights dr t).intelligent_recommendations =
      (_generate_fallback_insights dr t).root_cause_analysis.map
        (fun i => recommendationForCategory i.category) := by
  refine ⟨fallback_root_eq dr t, fallback_recs_eq dr t, ?_⟩
  rw [fallback_root_eq, fallback_recs_eq]
  cases hd : dr.dns.ok <;> cases hs : dr.ssl.ok <;> cases hh : dr.http.ok <;>
    cases hp : dr.ping.ok <;>
      simp [hd, hs, hh, hp, dnsIssue, sslIssue, httpIssue, pingIssue,
        recommendationForCategory]

/-- C9: for every diagnostic-results mapping and target, get_ai_insights
returns exactly the output of the local rule-based analyzer
_generate_fallback_insights, whether or not a provider API key is
configured: the synchronous insights path never consults the external
service. -/
theorem C9_get_ai_insights_eq_fallback (api_key : Option String)
    (dr : DiagnosticResults) (t : String) :
    get_ai_insights api_key dr t = _generate_fallback_insights dr t := by
  unfold get_ai_insights generate_ai_insights
  split <;> rfl

/-- C2: each probe converts every behaviour of its underlying network
call into a well-formed outcome instead of propagating a fault: for every
target and every behaviour of the underlying calls, the probe result is
exactly the success record when the call succeeds, and exactly the
ok=false record carrying the raised message as its error string when the
call raises; a ping call returning no echo reply (Python None) yields the
ok=false record with the "timeout" error. -/
theorem C2_probes_fault_to_outcome (target : String)
    (gethostbyname : String → Except String String)
    (http_get : String → Except String HttpResponse) (elapsed_ms : Int)
    (ping3 : String → Except String (Option ℚ)) :
    ((∃ ip, gethostbyname (normalize_target target) = Except.ok ip ∧
        dns_resolution target gethostbyname =
          { ok := true, host := normalize_target target, ip := some ip }) ∨
      (∃ e, gethostbyname (normalize_target target) = Except.error e ∧
        dns_resolution target gethostbyname =
          { ok := false, host := normalize_target target, error := some e })) ∧
    ((∃ r, http_get (_prepare_url target) = Except.ok r ∧
        http_check target http_get elapsed_ms =
          { ok := decide (r.status_code < 400), url := _prepare_url target,
            status_code := some r.status_code,
            response_time_ms := some elapsed_ms,
            final_url := some r.final_url,
            redirect_chain := some r.history }) ∨
      (∃ e, http_get (_prepare_url target) = Except.error e ∧
        http_check target http_get elapsed_ms =
          { ok := false, url := _prepare_url target, error := some e })) ∧
    ((∃ rtt, ping3 (normalize_target target) = Except.ok (some rtt) ∧
        ping_host target ping3 =
          { ok := true, host := normalize_target target,
            latency_ms := some (pyRound2 (rtt * 1000)) }) ∨
      (ping3 (normalize_target target) = Except.ok none ∧
        ping_host target ping3 =
          { ok := false, host := normalize_target target,
            latency_ms := none, error := some "timeout" }) ∨
      (∃ e, ping3 (normalize_target target) = Except.error e ∧
        ping_host target ping3 =
          { ok := false, host := normalize_target target,
            latency_ms := none, error := some e })) := by
  refine ⟨?_, ?_, ?_⟩
  · rcases hg : gethostbyname (normalize_target target) with e | ip
    · exact Or.inr ⟨e, rfl, by simp [dns_resolution, hg]⟩
    · exact Or.inl ⟨ip, rfl, by simp [dns_resolution, hg]⟩
  · rcases hh : http_get (_prepare_url target) with e | r
    · exact Or.inr ⟨e, rfl, by simp [http_check, hh]⟩
    · exact Or.inl ⟨r, rfl, by simp [http_check, hh]⟩
  · rcases hp : ping3 (normalize_target target) with e | rtt
    · exact Or.inr (Or.inr ⟨e, rfl, by simp [ping_host, hp]⟩)
    · rcases rtt with _ | rtt
      · exact Or.inr (Or.inl ⟨rfl, by simp [ping_host, hp]⟩)
      · exact Or.inl ⟨rtt, rfl, by simp [ping_host, hp]⟩
